import Mathlib

/-!
Shallow embedding of the farm-management application (`app/main.py`):
the persisted tables, the pure form/scoping helpers, and the request
handlers the specification's claims are about.  Dates are modelled as
integers (day numbers, so Python `date + timedelta(days = n)` is `+ n`),
liters as rationals, and the database as lists of rows with an
auto-increment counter.  Each handler takes the store and the
already-resolved session user (`Option User`, mirroring
`get_current_user`) and returns the new store and the HTTP response.
-/

namespace ErpFarm

/-- `DEFAULT_GESTATION_DAYS = 283` from `app/main.py`. -/
def DEFAULT_GESTATION_DAYS : Int := 283

/-- The `breed` table: id and name. -/
structure Breed where
  id : Nat
  name : String
deriving DecidableEq

/-- The `user` table (the fields the handlers read: admin flag and owning farm). -/
structure User where
  id : Nat
  username : String
  is_admin : Bool
  farm_id : Option Nat
deriving DecidableEq

/-- The `animal` table of `app/main.py`. -/
structure Animal where
  id : Nat
  tag_no : String
  sex : String
  birthdate : Int
  breed_id : Option Nat
  farm_id : Option Nat
  cattle_type : String
  mother_tag_no : Option String
  lactating : Bool
  pregnant : Bool
  vaccinated : Bool
  health : Option String
  weight : ℚ
  reproductions : Int
deriving DecidableEq

/-- The `milkyielddaily` table: one row per write, am/pm/total liters. -/
structure MilkYieldDaily where
  id : Nat
  animal_id : Nat
  entry_date : Int
  am_liters : ℚ
  pm_liters : ℚ
  total_liters : ℚ
deriving DecidableEq

/-- The five breeding-event kinds of the `BreedingType` enum. -/
inductive BreedingType where
  | Heat
  | AI
  | NaturalService
  | PDPositive
  | PDNegative
deriving DecidableEq

/-- The `breedingevent` table. -/
structure BreedingEvent where
  id : Nat
  animal_id : Nat
  event_type : BreedingType
  event_date : Int
  notes : Option String
deriving DecidableEq

/-- The `gestation` table. -/
structure Gestation where
  id : Nat
  animal_id : Nat
  service_date : Int
  predicted_calving_date : Int
  actual_calving_date : Option Int
  notes : Option String
deriving DecidableEq

/-- The `vaccinationreminder` table. -/
structure VaccinationReminder where
  id : Nat
  animal_id : Nat
  reminder_date : Int
  notes : Option String
deriving DecidableEq

/-- The relational store: one list per table plus the auto-increment counter
for freshly inserted primary keys. -/
structure Store where
  breeds : List Breed
  animals : List Animal
  milks : List MilkYieldDaily
  breeding_events : List BreedingEvent
  gestations : List Gestation
  vaccinations : List VaccinationReminder
  nextId : Nat
deriving DecidableEq

/-- The responses the embedded handlers produce: a redirect
(`RedirectResponse(url, status_code)`), an `HTTPException(status, detail)`,
or a rendered template (`templates.TemplateResponse(name, ...)`). -/
inductive Response where
  | redirect (url : String) (status : Nat)
  | httpError (status : Nat) (detail : String)
  | template (name : String)
deriving DecidableEq

/-- `form_bool` from `app/main.py`: checkbox semantics for form values. -/
def form_bool (value : Option String) : Bool :=
  match value with
  | none => false
  | some v => v.toLower = "on" ∨ v.toLower = "yes" ∨ v.toLower = "true" ∨ v.toLower = "1"

/-- Python truthiness of `user.farm_id` (an `Optional[int]`): `None` and `0`
are falsy.  Used wherever the source writes `if user.farm_id ...`. -/
def farmTruthy (u : User) : Bool :=
  match u.farm_id with
  | none => false
  | some n => n ≠ 0

/-- Python `x or None` on an optional string form field: `""` becomes `None`. -/
def orNoneStr (v : Option String) : Option String :=
  match v with
  | some s => if s = "" then none else some s
  | none => none

/-- `session.get(Animal, animal_id)`: look the row up by primary key. -/
def findAnimal (animals : List Animal) (animal_id : Nat) : Option Animal :=
  animals.find? (fun a => a.id = animal_id)

/-- The breed lookup-or-create block shared by `animals_create` and
`animal_edit`: when `breed_name` is truthy, find the breed by name or insert
(and commit) a fresh row; returns the possibly-extended store and the
resolved `breed_id`. -/
def lookupOrCreateBreed (s : Store) (breed_name : Option String) :
    Store × Option Nat :=
  match breed_name with
  | none => (s, none)
  | some bn =>
    if bn = "" then (s, none)
    else
      match s.breeds.find? (fun b => b.name = bn) with
      | some b => (s, some b.id)
      | none =>
        ({ s with breeds := s.breeds ++ [⟨s.nextId, bn⟩], nextId := s.nextId + 1 },
         some s.nextId)

/-- One step of the maximum-by-service-date scan backing `latestGestation`. -/
def latestStep (acc : Option Gestation) (g : Gestation) : Option Gestation :=
  match acc with
  | none => some g
  | some b => if b.service_date < g.service_date then some g else some b

/-- `select(Gestation).where(animal_id == aid).order_by(service_date.desc()).first()`:
the animal's gestation row with the greatest service date (first such row on
ties), used by `add_breeding_event` and `mark_calved`. -/
def latestGestation (gs : List Gestation) (aid : Nat) : Option Gestation :=
  (gs.filter (fun g => g.animal_id = aid)).foldl latestStep none

/-- The form fields of `POST /animals` and `POST /animals/{id}/edit`. -/
structure AnimalForm where
  tag_no : String
  sex : String
  birthdate : Int
  breed_name : Option String
  cattle_type : String
  mother_tag_no : Option String
  lactating : Option String
  pregnant : Option String
  vaccinated : Option String
  health : Option String
  weight : ℚ
  reproductions : Int
deriving DecidableEq

/-- Handler `animals_create` (`POST /animals`): resolve/create the breed
(committed on its own), then try to insert the animal; a duplicate `tag_no`
violates the unique index, the insert is rolled back and a 400 error is
raised, leaving the separately committed breed in place. -/
def animals_create (s : Store) (ou : Option User) (f : AnimalForm) :
    Store × Response :=
  match ou with
  | none => (s, .redirect "/login" 302)
  | some u =>
    let sb := lookupOrCreateBreed s f.breed_name
    if sb.1.animals.any (fun a => a.tag_no = f.tag_no) then
      (sb.1, .httpError 400 "Tag already exists")
    else
      ({ sb.1 with
          animals := sb.1.animals ++
            [{ id := sb.1.nextId
               tag_no := f.tag_no
               sex := f.sex
               birthdate := f.birthdate
               breed_id := sb.2
               farm_id := u.farm_id
               cattle_type := if f.cattle_type = "" then "Cow" else f.cattle_type
               mother_tag_no := orNoneStr f.mother_tag_no
               lactating := form_bool f.lactating
               pregnant := form_bool f.pregnant
               vaccinated := form_bool f.vaccinated
               health := orNoneStr f.health
               weight := f.weight
               reproductions := f.reproductions }]
          nextId := sb.1.nextId + 1 },
       .redirect "/animals" 302)

/-- Handler `animal_detail` (`GET /animals/{animal_id}`): 404 when the animal
is absent, 403 for a non-admin user with a (truthy) farm looking at an animal
of another farm, otherwise the detail template. -/
def animal_detail (s : Store) (ou : Option User) (animal_id : Nat) : Response :=
  match ou with
  | none => .redirect "/login" 302
  | some u =>
    match findAnimal s.animals animal_id with
    | none => .httpError 404 "Animal not found"
    | some animal =>
      if farmTruthy u ∧ ¬u.is_admin ∧ animal.farm_id ≠ u.farm_id then
        .httpError 403 "Not allowed"
      else
        .template "animal_detail.html"

/-- Handler `animal_edit` (`POST /animals/{animal_id}/edit`): no farm check;
resolve/create the breed (committed on its own), overwrite the animal's
fields, and roll back with a 400 error when the new `tag_no` collides with a
different animal's tag. -/
def animal_edit (s : Store) (ou : Option User) (animal_id : Nat)
    (f : AnimalForm) : Store × Response :=
  match ou with
  | none => (s, .redirect "/login" 302)
  | some _u =>
    match findAnimal s.animals animal_id with
    | none => (s, .httpError 404 "Animal not found")
    | some _animal =>
      let sb := lookupOrCreateBreed s f.breed_name
      if sb.1.animals.any (fun b => b.id ≠ animal_id ∧ b.tag_no = f.tag_no) then
        (sb.1, .httpError 400 "Tag already exists")
      else
        ({ sb.1 with
            animals := sb.1.animals.map (fun b =>
              if b.id = animal_id then
                { b with
                    tag_no := f.tag_no
                    sex := f.sex
                    birthdate := f.birthdate
                    breed_id := sb.2
                    cattle_type := if f.cattle_type = "" then "Cow" else f.cattle_type
                    mother_tag_no := orNoneStr f.mother_tag_no
                    lactating := form_bool f.lactating
                    pregnant := form_bool f.pregnant
                    vaccinated := form_bool f.vaccinated
                    health := orNoneStr f.health
                    weight := f.weight
                    reproductions := f.reproductions }
              else b) },
         .redirect ("/animals/" ++ toString animal_id) 302)

/-- Handler `animal_delete` (`POST /animals/{animal_id}/delete`): after the
404 check the source merely *selects* the dependent milk, breeding,
gestation and reminder rows (the results are discarded — no delete is
issued on them), then deletes the animal row and commits. -/
def animal_delete (s : Store) (ou : Option User) (animal_id : Nat) :
    Store × Response :=
  match ou with
  | none => (s, .redirect "/login" 302)
  | some _u =>
    match findAnimal s.animals animal_id with
    | none => (s, .httpError 404 "Not found")
    | some _animal =>
      let _milk := s.milks.filter (fun m => m.animal_id = animal_id)
      let _events := s.breeding_events.filter (fun e => e.animal_id = animal_id)
      let _gest := s.gestations.filter (fun g => g.animal_id = animal_id)
      let _vacc := s.vaccinations.filter (fun v => v.animal_id = animal_id)
      ({ s with animals := s.animals.filter (fun a => a.id ≠ animal_id) },
       .redirect "/animals" 302)

/-- Handler `add_milk` (`POST /milk/{animal_id}`): compute
`total = am + pm`; if a row for `(animal_id, entry_date)` exists, overwrite
its am/pm/total, else insert a fresh row.  (No animal-existence or farm
check is performed.) -/
def add_milk (s : Store) (ou : Option User) (animal_id : Nat)
    (entry_date : Int) (am_liters pm_liters : ℚ) : Store × Response :=
  match ou with
  | none => (s, .redirect "/login" 302)
  | some _u =>
    let total := am_liters + pm_liters
    match s.milks.find? (fun m => m.animal_id = animal_id ∧ m.entry_date = entry_date) with
    | some existing =>
      ({ s with
          milks := s.milks.map (fun m =>
            if m.id = existing.id then
              { m with am_liters := am_liters, pm_liters := pm_liters,
                       total_liters := total }
            else m) },
       .redirect ("/animals/" ++ toString animal_id) 302)
    | none =>
      ({ s with
          milks := s.milks ++
            [{ id := s.nextId
               animal_id := animal_id
               entry_date := entry_date
               am_liters := am_liters
               pm_liters := pm_liters
               total_liters := total }]
          nextId := s.nextId + 1 },
       .redirect ("/animals/" ++ toString animal_id) 302)

/-- Handler `add_breeding_event` (`POST /breeding/{animal_id}/event`): 404
when the animal is absent; append the event row; when the type is AI or
NaturalService, compute `predicted = event_date + DEFAULT_GESTATION_DAYS`
and overwrite the latest gestation's service/predicted dates if one exists,
else insert a fresh gestation. -/
def add_breeding_event (s : Store) (ou : Option User) (animal_id : Nat)
    (event_type : BreedingType) (event_date : Int) (notes : Option String) :
    Store × Response :=
  match ou with
  | none => (s, .redirect "/login" 302)
  | some _u =>
    match findAnimal s.animals animal_id with
    | none => (s, .httpError 404 "Animal not found")
    | some _animal =>
      let s1 := { s with
        breeding_events := s.breeding_events ++
          [{ id := s.nextId
             animal_id := animal_id
             event_type := event_type
             event_date := event_date
             notes := notes }]
        nextId := s.nextId + 1 }
      if event_type = .AI ∨ event_type = .NaturalService then
        let predicted := event_date + DEFAULT_GESTATION_DAYS
        match latestGestation s1.gestations animal_id with
        | some gest =>
          ({ s1 with
              gestations := s1.gestations.map (fun g =>
                if g.id = gest.id then
                  { g with service_date := event_date,
                           predicted_calving_date := predicted }
                else g) },
           .redirect ("/animals/" ++ toString animal_id) 302)
        | none =>
          ({ s1 with
              gestations := s1.gestations ++
                [{ id := s1.nextId
                   animal_id := animal_id
                   service_date := event_date
                   predicted_calving_date := predicted
                   actual_calving_date := none
                   notes := none }]
              nextId := s1.nextId + 1 },
           .redirect ("/animals/" ++ toString animal_id) 302)
      else
        (s1, .redirect ("/animals/" ++ toString animal_id) 302)

/-- Python `round(x, 2)` on the embedded rational value: scale by 100 and
round half-to-even, as Python's `round` does. -/
def pyRound2 (x : ℚ) : ℚ :=
  let y := x * 100
  let f := y.floor
  let r := y - (f : ℚ)
  let n : Int :=
    if r < 1/2 then f
    else if 1/2 < r then f + 1
    else if f % 2 = 0 then f else f + 1
  (n : ℚ) / 100

/-- The aggregate values the `dashboard` handler passes to its template
(the recent-events list, a further template field no claim mentions, is not
modelled). -/
structure DashboardData where
  total_animals : Nat
  milk_today : ℚ
  avg_7 : ℚ
  pregnant : Nat
  chart_values : List ℚ
deriving DecidableEq

/-- `a = session.get(Animal, row.animal_id); a and a.farm_id == user.farm_id`:
the row's animal exists and belongs to the user's farm. -/
def rowInUserFarm (s : Store) (u : User) (animal_id : Nat) : Bool :=
  match findAnimal s.animals animal_id with
  | some a => a.farm_id = u.farm_id
  | none => false

/-- The aggregation body of handler `dashboard` (`GET /dashboard`) for a
logged-in user: animal count and today's milk are farm-restricted for a
non-admin with a truthy farm, the 7-day average sums *all* milk rows in the
window (no farm filter in the source) and divides by 7 with `round(..., 2)`,
the pending-gestation count and the 14-day chart are farm-restricted again. -/
def dashboardData (s : Store) (u : User) (today : Int) : DashboardData :=
  let farm_scoped := farmTruthy u ∧ ¬u.is_admin
  let animals := if farm_scoped then s.animals.filter (fun a => a.farm_id = u.farm_id)
                 else s.animals
  let todays := s.milks.filter (fun m => m.entry_date = today)
  let milk_rows := if farm_scoped then todays.filter (fun m => rowInUserFarm s u m.animal_id)
                   else todays
  let milk_today : ℚ := if milk_rows.isEmpty then 0
                        else (milk_rows.map (fun m => m.total_liters)).sum
  let last7_start := today - 6
  let milk7 := s.milks.filter
    (fun m => last7_start ≤ m.entry_date ∧ m.entry_date ≤ today)
  let avg_7 : ℚ := if milk7.isEmpty then 0
                   else pyRound2 ((milk7.map (fun m => m.total_liters)).sum / 7)
  let gest_list := s.gestations.filter
    (fun g => today ≤ g.predicted_calving_date ∧ g.actual_calving_date = none)
  let pregnant := if farm_scoped then
                    (gest_list.filter (fun g => rowInUserFarm s u g.animal_id)).length
                  else gest_list.length
  let start_chart := today - 13
  let chart_values := (List.range 14).map (fun offset =>
    let d := start_chart + (offset : Int)
    let day_rows := s.milks.filter (fun m => m.entry_date = d)
    let day_rows := if farm_scoped then day_rows.filter (fun m => rowInUserFarm s u m.animal_id)
                    else day_rows
    (day_rows.map (fun m => m.total_liters)).sum)
  { total_animals := animals.length
    milk_today := milk_today
    avg_7 := avg_7
    pregnant := pregnant
    chart_values := chart_values }

/-- Handler `dashboard`: redirect to login when unauthenticated, otherwise
render the aggregates of `dashboardData`. -/
def dashboard (s : Store) (ou : Option User) (today : Int) :
    Response ⊕ DashboardData :=
  match ou with
  | none => .inl (.redirect "/login" 302)
  | some u => .inr (dashboardData s u today)

/-- The three hero counts of handler `home` (`GET /home`) for a logged-in
user.  Scoping here tests only `if user.farm_id` — the admin flag is *not*
consulted, unlike `animals_list` and `dashboard`. -/
def homeCounts (s : Store) (u : User) (today : Int) : Nat × Nat × Nat :=
  let animals_count := (if farmTruthy u then
                          s.animals.filter (fun a => a.farm_id = u.farm_id)
                        else s.animals).length
  let milk_rows := s.milks.filter (fun m => m.entry_date = today)
  let milk_entries_count := if farmTruthy u then
                              (milk_rows.filter (fun m => rowInUserFarm s u m.animal_id)).length
                            else milk_rows.length
  let gest_list := s.gestations.filter
    (fun g => today ≤ g.predicted_calving_date ∧ g.actual_calving_date = none)
  let gestations_count := if farmTruthy u then
                            (gest_list.filter (fun g => rowInUserFarm s u g.animal_id)).length
                          else gest_list.length
  (animals_count, milk_entries_count, gestations_count)

/-- Number of stored rows (across the four dependent tables) whose
`animal_id` references the given animal. -/
def countRefs (s : Store) (animal_id : Nat) : Nat :=
  s.milks.countP (fun m => m.animal_id = animal_id) +
  s.breeding_events.countP (fun e => e.animal_id = animal_id) +
  s.gestations.countP (fun g => g.animal_id = animal_id) +
  s.vaccinations.countP (fun v => v.animal_id = animal_id)

/-- Number of milk rows stored for one `(animal, calendar date)` pair. -/
def countPair (s : Store) (animal_id : Nat) (d : Int) : Nat :=
  s.milks.countP (fun m => m.animal_id = animal_id ∧ m.entry_date = d)

/-- A sequence of `POST /milk/{animal_id}` writes for one `(animal, date)`
pair, applied in order (each element is the `(am, pm)` form pair). -/
def applyMilkWrites (s : Store) (ou : Option User) (animal_id : Nat)
    (d : Int) (ws : List (ℚ × ℚ)) : Store :=
  ws.foldl (fun st w => (add_milk st ou animal_id d w.1 w.2).1) s

/-- Spec-side definition (§4.4 in the spec's words, for comparison with the
code): the number of gestation records with `predicted_calving_date >= today`
and `actual_calving_date` null, restricted to animals in scope for the
requesting user — all rows when the user is an admin or has no farm assigned,
otherwise the rows whose animal belongs to the user's farm. -/
def pendingGestationCount_spec (s : Store) (u : User) (today : Int) : Nat :=
  (s.gestations.filter (fun g =>
    decide (today ≤ g.predicted_calving_date) &&
    decide (g.actual_calving_date = none) &&
    (u.is_admin || decide (u.farm_id = none) ||
      decide (∃ a ∈ s.animals, a.id = g.animal_id ∧ a.farm_id = u.farm_id)))).length

/-- Spec-side definition (§4.3 in the spec's words, for comparison with the
code): the 7-day milk average over the farm-scoped set of animals — milk
rows of the window `today - 6 .. today` whose animal is visible to the user
(all animals when the user is an admin or has no farm assigned, otherwise
the user's farm only), summed and divided by 7, rounded to two decimals as
in the spec's own scenario. -/
def sevenDayAvg_spec (s : Store) (u : User) (today : Int) : ℚ :=
  let rows := s.milks.filter (fun m =>
    decide (today - 6 ≤ m.entry_date) && decide (m.entry_date ≤ today) &&
    (u.is_admin || decide (u.farm_id = none) ||
      decide (∃ a ∈ s.animals, a.id = m.animal_id ∧ a.farm_id = u.farm_id)))
  pyRound2 ((rows.map (fun m => m.total_liters)).sum / 7)

/-! Concrete states used to evaluate the handlers at specific inputs. -/

/-- A farm-1 animal with primary key 1. -/
def animalOne : Animal :=
  ⟨1, "A1", "F", 0, none, some 1, "Cow", none, false, false, false, none, 0, 0⟩

/-- A farm-2 animal with primary key 2. -/
def animalTwo : Animal :=
  ⟨2, "B2", "F", 0, none, some 2, "Cow", none, false, false, false, none, 0, 0⟩

/-- An admin user of farm 1. -/
def adminUser : User := ⟨1, "admin", true, some 1⟩

/-- A non-admin user of farm 1. -/
def farm1User : User := ⟨10, "worker", false, some 1⟩

/-- Store for evaluating the delete handler: animal 1 with one dependent row
in each of the four child tables. -/
def sDel : Store :=
  { breeds := []
    animals := [animalOne]
    milks := [⟨1, 1, 40, 5, 3, 8⟩]
    breeding_events := [⟨1, 1, .AI, 30, none⟩]
    gestations := [⟨1, 1, 30, 313, none, none⟩]
    vaccinations := [⟨1, 1, 60, none⟩]
    nextId := 2 }

/-- Store for the dashboard tenant-scoping evaluation: the only milk row
(7 liters, day 97) belongs to animal 2, which belongs to farm 2. -/
def sLeak : Store :=
  { breeds := []
    animals := [animalOne, animalTwo]
    milks := [⟨1, 2, 97, 3, 4, 7⟩]
    breeding_events := []
    gestations := []
    vaccinations := []
    nextId := 5 }

/-- Store for the 7-day-average evaluation: the only milk row (14 liters,
day 197) belongs to animal 2, which belongs to farm 2. -/
def sAvg : Store :=
  { breeds := []
    animals := [animalOne, animalTwo]
    milks := [⟨1, 2, 197, 6, 8, 14⟩]
    breeding_events := []
    gestations := []
    vaccinations := []
    nextId := 5 }

/-- Store holding one animal with tag `"T1"` and no breeds, for the
duplicate-tag creation attempt. -/
def sDup : Store :=
  { breeds := []
    animals := [animalOne]
    milks := []
    breeding_events := []
    gestations := []
    vaccinations := []
    nextId := 5 }

/-- Creation form reusing the existing tag `"A1"` and naming a breed that
does not exist yet. -/
def dupForm : AnimalForm :=
  { tag_no := "A1"
    sex := "F"
    birthdate := 0
    breed_name := some "Jersey"
    cattle_type := "Cow"
    mother_tag_no := none
    lactating := none
    pregnant := none
    vaccinated := none
    health := none
    weight := 0
    reproductions := 0 }

/-- Store with animals of two farms for the cross-tenant edit evaluation. -/
def sCross : Store :=
  { breeds := []
    animals := [animalOne, animalTwo]
    milks := []
    breeding_events := []
    gestations := []
    vaccinations := []
    nextId := 7 }

/-- Edit form keeping animal 2's own tag but changing its sex to `"M"`. -/
def crossForm : AnimalForm :=
  { tag_no := "B2"
    sex := "M"
    birthdate := 0
    breed_name := none
    cattle_type := "Cow"
    mother_tag_no := none
    lactating := none
    pregnant := none
    vaccinated := none
    health := none
    weight := 0
    reproductions := 0 }

/-- Store with one animal and no gestation rows, for the insert branch of
the breeding-event handler. -/
def sBreed : Store :=
  { breeds := []
    animals := [animalOne]
    milks := []
    breeding_events := []
    gestations := []
    vaccinations := []
    nextId := 3 }

/-- Store with one animal and two gestation rows; the later one (service
day 9) is already closed with `actual_calving_date = some 300`. -/
def sGest : Store :=
  { breeds := []
    animals := [animalOne]
    milks := []
    breeding_events := []
    gestations := [⟨1, 1, 5, 288, none, none⟩, ⟨2, 1, 9, 292, some 300, none⟩]
    vaccinations := []
    nextId := 3 }

/-- The empty store. -/
def sEmpty : Store :=
  { breeds := []
    animals := []
    milks := []
    breeding_events := []
    gestations := []
    vaccinations := []
    nextId := 1 }

/-- Store for the pending-gestation count: one pending gestation
(predicted 105, farm 1), one overdue gestation (predicted 99, farm 1) and
one pending gestation of farm 2's animal. -/
def sPend : Store :=
  { breeds := []
    animals := [animalOne, animalTwo]
    milks := []
    breeding_events := []
    gestations := [⟨1, 1, 20, 105, none, none⟩, ⟨2, 1, 10, 99, none, none⟩,
                   ⟨3, 2, 30, 200, none, none⟩]
    vaccinations := []
    nextId := 4 }

/-!  Theorems settling the claims. -/

/-- C1: deleting animal 1 — which has one milk row, one breeding event, one
gestation and one vaccination reminder — removes the animal row but leaves
all four dependent rows in place: afterwards four rows still reference
animal id 1, contradicting the contract that zero rows reference the id.
The handler only issues `select` statements on the child tables. -/
theorem C1_delete_leaves_referencing_rows :
    (animal_delete sDel (some adminUser) 1).2 = Response.redirect "/animals" 302 ∧
    (animal_delete sDel (some adminUser) 1).1.animals = [] ∧
    countRefs sDel 1 = 4 ∧
    countRefs (animal_delete sDel (some adminUser) 1).1 1 = 4 := by
  with_unfolding_all decide

/-- C2: for the non-admin farm-1 user, the dashboard's 7-day milk average is
1 liter/day although the store's only milk row belongs to farm 2's animal —
the 7-day aggregate is not farm-scoped, so a list/aggregate endpoint does
include records of a different farm (today's milk, by contrast, is
correctly scoped to 0). -/
theorem C2_dashboard_includes_foreign_farm_milk :
    farm1User.is_admin = false ∧
    farm1User.farm_id = some 1 ∧
    sLeak.milks = [⟨1, 2, 97, 3, 4, 7⟩] ∧
    findAnimal sLeak.animals 2 = some animalTwo ∧
    animalTwo.farm_id = some 2 ∧
    (dashboardData sLeak farm1User 100).avg_7 = 1 ∧
    (dashboardData sLeak farm1User 100).milk_today = 0 := by
  with_unfolding_all decide

/-- C7: the dashboard's 7-day average for the non-admin farm-1 user equals
2 liters/day — `round(14/7, 2)` computed over the whole store — while the
farm-scoped average described by the spec is 0, because the only milk in
the window belongs to farm 2's animal. -/
theorem C7_seven_day_average_not_farm_scoped :
    farm1User.is_admin = false ∧
    farm1User.farm_id = some 1 ∧
    sAvg.milks = [⟨1, 2, 197, 6, 8, 14⟩] ∧
    findAnimal sAvg.animals 2 = some animalTwo ∧
    animalTwo.farm_id = some 2 ∧
    (dashboardData sAvg farm1User 200).avg_7 = 2 ∧
    sevenDayAvg_spec sAvg farm1User 200 = 0 := by
  with_unfolding_all decide

/-- C3 counterexample: creating an animal whose tag collides with the
existing tag `"A1"` produces the `HTTPException` response
`400 "Tag already exists"`, not a re-rendered form with a message (no
`template` response is produced), refuting the claim's description of the
failure mode. -/
theorem C3_duplicate_tag_yields_http_400_not_form :
    (animals_create sDup (some farm1User) dupForm).2 =
      Response.httpError 400 "Tag already exists" ∧
    (animals_create sDup (some farm1User) dupForm).1.animals = sDup.animals ∧
    (animals_create sDup (some farm1User) dupForm).1.breeds = [⟨5, "Jersey"⟩] := by
  with_unfolding_all decide

/-- C8 counterexample: the non-admin farm-1 user edits farm 2's animal
(id 2): the handler answers with the success redirect and the row's sex is
overwritten to `"M"` — the edit is performed, not rejected with a
Forbidden response. -/
theorem C8_cross_tenant_edit_is_performed :
    (animal_edit sCross (some farm1User) 2 crossForm).2 =
      Response.redirect ("/animals/" ++ toString 2) 302 ∧
    (animal_edit sCross (some farm1User) 2 crossForm).1.animals =
      [animalOne,
       ⟨2, "B2", "M", 0, none, some 2, "Cow", none, false, false, false, none, 0, 0⟩] := by
  with_unfolding_all decide

/-! Helper lemmas. -/

/-- The breed lookup-or-create step touches no table other than `breeds`. -/
lemma lookupOrCreateBreed_preserves (s : Store) (bn : Option String) :
    (lookupOrCreateBreed s bn).1.animals = s.animals ∧
    (lookupOrCreateBreed s bn).1.milks = s.milks ∧
    (lookupOrCreateBreed s bn).1.breeding_events = s.breeding_events ∧
    (lookupOrCreateBreed s bn).1.gestations = s.gestations ∧
    (lookupOrCreateBreed s bn).1.vaccinations = s.vaccinations := by
  unfold lookupOrCreateBreed
  cases bn with
  | none => exact ⟨rfl, rfl, rfl, rfl, rfl⟩
  | some b =>
    dsimp only
    split
    · exact ⟨rfl, rfl, rfl, rfl, rfl⟩
    · split
      · exact ⟨rfl, rfl, rfl, rfl, rfl⟩
      · exact ⟨rfl, rfl, rfl, rfl, rfl⟩

/-- A result of folding `latestStep` comes from the accumulator or the list
and dominates both in service date. -/
lemma foldl_latestStep_spec :
    ∀ (l : List Gestation) (acc : Option Gestation) (g : Gestation),
      l.foldl latestStep acc = some g →
      (acc = some g ∨ g ∈ l) ∧
      (∀ b, acc = some b → b.service_date ≤ g.service_date) ∧
      (∀ x ∈ l, x.service_date ≤ g.service_date) := by
  intro l
  induction l with
  | nil =>
    intro acc g h
    simp only [List.foldl_nil] at h
    refine ⟨Or.inl h, ?_, by simp⟩
    intro b hb
    rw [h] at hb
    cases hb
    exact le_refl _
  | cons x t ih =>
    intro acc g h
    rw [List.foldl_cons] at h
    obtain ⟨hmem, hacc, hall⟩ := ih (latestStep acc x) g h
    have hstep_le : x.service_date ≤ g.service_date := by
      cases acc with
      | none =>
        exact hacc x (by simp [latestStep])
      | some b =>
        by_cases hlt : b.service_date < x.service_date
        · exact hacc x (by simp [latestStep, hlt])
        · have hb := hacc b (by simp [latestStep, hlt])
          omega
    refine ⟨?_, ?_, ?_⟩
    · rcases hmem with hstep | hgt
      · cases acc with
        | none =>
          simp only [latestStep] at hstep
          cases hstep
          exact Or.inr (List.mem_cons_self _ _)
        | some b =>
          simp only [latestStep] at hstep
          by_cases hlt : b.service_date < x.service_date
          · rw [if_pos hlt] at hstep
            cases hstep
            exact Or.inr (List.mem_cons_self _ _)
          · rw [if_neg hlt] at hstep
            exact Or.inl hstep
      · exact Or.inr (List.mem_cons_of_mem _ hgt)
    · intro b hb
      subst hb
      by_cases hlt : b.service_date < x.service_date
      · have hx := hacc x (by simp [latestStep, hlt])
        omega
      · exact hacc b (by simp [latestStep, hlt])
    · intro y hy
      rcases List.mem_cons.mp hy with hyx | hyt
      · cases hyx
        exact hstep_le
      · exact hall y hyt

/-- A row returned by `latestGestation` belongs to the table and to the
requested animal. -/
lemma latestGestation_mem {gs : List Gestation} {aid : Nat} {g : Gestation}
    (h : latestGestation gs aid = some g) : g ∈ gs ∧ g.animal_id = aid := by
  unfold latestGestation at h
  obtain ⟨hmem, -, -⟩ := foldl_latestStep_spec _ _ _ h
  rcases hmem with habs | hgt
  · exact Option.noConfusion habs
  · have hf := List.mem_filter.mp hgt
    exact ⟨hf.1, by simpa using hf.2⟩

/-- A row returned by `latestGestation` has the maximal service date among
the animal's gestation rows. -/
lemma latestGestation_ge {gs : List Gestation} {aid : Nat} {g : Gestation}
    (h : latestGestation gs aid = some g) :
    ∀ x ∈ gs, x.animal_id = aid → x.service_date ≤ g.service_date := by
  unfold latestGestation at h
  obtain ⟨-, -, hall⟩ := foldl_latestStep_spec _ _ _ h
  intro x hx hxa
  exact hall x (List.mem_filter.mpr ⟨hx, by simpa using hxa⟩)

/-- When a gestation row exists for the animal, an AI/NaturalService event
overwrites the latest row's service and predicted dates in place. -/
lemma add_breeding_event_update (s : Store) (u : User) (aid : Nat)
    (et : BreedingType) (ed : Int) (n : Option String) (a : Animal)
    (g : Gestation)
    (ha : findAnimal s.animals aid = some a)
    (hty : et = .AI ∨ et = .NaturalService)
    (hg : latestGestation s.gestations aid = some g) :
    (add_breeding_event s (some u) aid et ed n).1.gestations =
      s.gestations.map (fun x =>
        if x.id = g.id then
          { x with service_date := ed,
                   predicted_calving_date := ed + DEFAULT_GESTATION_DAYS }
        else x) := by
  simp only [add_breeding_event, ha]
  rw [if_pos hty]
  simp [hg]

/-- When no gestation row exists for the animal, an AI/NaturalService event
appends a fresh gestation row with the predicted date. -/
lemma add_breeding_event_insert (s : Store) (u : User) (aid : Nat)
    (et : BreedingType) (ed : Int) (n : Option String) (a : Animal)
    (ha : findAnimal s.animals aid = some a)
    (hty : et = .AI ∨ et = .NaturalService)
    (hnone : latestGestation s.gestations aid = none) :
    (add_breeding_event s (some u) aid et ed n).1.gestations =
      s.gestations ++
        [⟨s.nextId + 1, aid, ed, ed + DEFAULT_GESTATION_DAYS, none, none⟩] := by
  simp only [add_breeding_event, ha]
  rw [if_pos hty]
  simp [hnone]

/-- In a list with at most one element satisfying `p`, any two members
satisfying `p` coincide. -/
lemma countP_le_one_unique {α : Type} (p : α → Bool) :
    ∀ (l : List α), l.countP p ≤ 1 →
      ∀ a ∈ l, ∀ b ∈ l, p a → p b → a = b := by
  intro l
  induction l with
  | nil => intro _ a ha; exact absurd ha (List.not_mem_nil a)
  | cons x t ih =>
    intro h a ha b hb hpa hpb
    rw [List.countP_cons] at h
    by_cases hpx : p x
    · have ht0 : t.countP p = 0 := by rw [if_pos hpx] at h; omega
      have hnone : ∀ y ∈ t, ¬ p y := by
        intro y hy
        exact (List.countP_eq_zero.mp ht0) y hy
      have hax : a = x := by
        rcases List.mem_cons.mp ha with h1 | h1
        · exact h1
        · exact absurd hpa (hnone a h1)
      have hbx : b = x := by
        rcases List.mem_cons.mp hb with h1 | h1
        · exact h1
        · exact absurd hpb (hnone b h1)
      rw [hax, hbx]
    · have hat : a ∈ t := by
        rcases List.mem_cons.mp ha with h1 | h1
        · exact absurd (h1 ▸ hpa) hpx
        · exact h1
      have hbt : b ∈ t := by
        rcases List.mem_cons.mp hb with h1 | h1
        · exact absurd (h1 ▸ hpb) hpx
        · exact h1
      have ht1 : t.countP p ≤ 1 := by rw [if_neg hpx] at h; omega
      exact ih ht1 a hat b hbt hpa hpb

/-- Single milk write: from a state with at most one row for the pair,
exactly one row remains and it carries the write's am/pm/total. -/
lemma add_milk_step (s : Store) (u : User) (aid : Nat) (d : Int)
    (am pm : ℚ) (h : countPair s aid d ≤ 1) :
    countPair (add_milk s (some u) aid d am pm).1 aid d = 1 ∧
    ∀ m ∈ (add_milk s (some u) aid d am pm).1.milks,
      m.animal_id = aid → m.entry_date = d →
      m.am_liters = am ∧ m.pm_liters = pm ∧ m.total_liters = am + pm := by
  cases hf : s.milks.find? (fun m => m.animal_id = aid ∧ m.entry_date = d) with
  | none =>
    have hzero : s.milks.countP (fun m => m.animal_id = aid ∧ m.entry_date = d) = 0 := by
      rw [List.countP_eq_zero]
      intro m hm
      have := List.find?_eq_none.mp hf m hm
      simpa using this
    constructor
    · simp only [countPair, add_milk, hf]
      rw [List.countP_append, hzero]
      simp
    · intro m hm hma hmd
      simp only [add_milk, hf] at hm
      rcases List.mem_append.mp hm with hmold | hmnew
      · have := List.find?_eq_none.mp hf m hmold
        simp [hma, hmd] at this
      · have hmv := List.mem_singleton.mp hmnew
        rw [hmv]
        exact ⟨rfl, rfl, rfl⟩
  | some e =>
    have hpe : (e.animal_id = aid ∧ e.entry_date = d) := by
      have := List.find?_some hf
      simpa using this
    have hme : e ∈ s.milks := List.mem_of_find?_eq_some hf
    constructor
    · have hpos : 0 < s.milks.countP (fun m => m.animal_id = aid ∧ m.entry_date = d) := by
        rw [List.countP_pos_iff]
        exact ⟨e, hme, by simpa using hpe⟩
      have heq : countPair (add_milk s (some u) aid d am pm).1 aid d =
          countPair s aid d := by
        simp only [countPair, add_milk, hf]
        rw [List.countP_map]
        apply List.countP_congr
        intro m _
        by_cases hid : m.id = e.id <;> simp [Function.comp, hid]
      rw [heq]
      unfold countPair at h hpos ⊢
      omega
    · intro m hm hma hmd
      simp only [add_milk, hf] at hm
      obtain ⟨m0, hm0, hm0eq⟩ := List.mem_map.mp hm
      have hpm0 : m0.animal_id = aid ∧ m0.entry_date = d := by
        by_cases hid : m0.id = e.id
        · rw [← hm0eq] at hma hmd
          simp [hid] at hma hmd
          exact ⟨hma, hmd⟩
        · rw [← hm0eq] at hma hmd
          simp [hid] at hma hmd
          exact ⟨hma, hmd⟩
      have hm0e : m0 = e := by
        apply countP_le_one_unique _ s.milks h m0 hm0 e hme
        · simpa using hpm0
        · simpa using hpe
      rw [← hm0eq, hm0e]
      simp

/-- The at-most-one-row-per-pair invariant is preserved by any sequence of
milk writes. -/
lemma applyMilkWrites_le_one (s : Store) (u : User) (aid : Nat) (d : Int)
    (ws : List (ℚ × ℚ)) (h : countPair s aid d ≤ 1) :
    countPair (applyMilkWrites s (some u) aid d ws) aid d ≤ 1 := by
  induction ws generalizing s with
  | nil => exact h
  | cons w ws ih =>
    simp only [applyMilkWrites, List.foldl_cons]
    exact ih _ (le_of_eq (add_milk_step s u aid d w.1 w.2 h).1)

/-- `rowInUserFarm` decides the existence of a matching animal row when
animal primary keys are unique. -/
lemma rowInUserFarm_iff (s : Store) (u : User) (aid : Nat)
    (hnd : (s.animals.map (fun a => a.id)).Nodup) :
    rowInUserFarm s u aid = true ↔
      ∃ a ∈ s.animals, a.id = aid ∧ a.farm_id = u.farm_id := by
  unfold rowInUserFarm findAnimal
  cases hf : s.animals.find? (fun a => a.id = aid) with
  | none =>
    constructor
    · intro hfalse
      exact absurd hfalse (by simp)
    · rintro ⟨a, ha, hid, -⟩
      have hn := List.find?_eq_none.mp hf a ha
      simp [hid] at hn
  | some b =>
    have hb : b.id = aid := by simpa using List.find?_some hf
    have hbmem : b ∈ s.animals := List.mem_of_find?_eq_some hf
    constructor
    · intro htrue
      exact ⟨b, hbmem, hb, by simpa using htrue⟩
    · rintro ⟨a, ha, hid, hfarm⟩
      have hab : a = b :=
        List.inj_on_of_nodup_map hnd ha hbmem (by rw [hid, hb])
      rw [hab] at hfarm
      simp [hfarm]

/-- Bool form of `rowInUserFarm_iff`. -/
lemma rowInUserFarm_eq_decide (s : Store) (u : User) (aid : Nat)
    (hnd : (s.animals.map (fun a => a.id)).Nodup) :
    rowInUserFarm s u aid =
      decide (∃ a ∈ s.animals, a.id = aid ∧ a.farm_id = u.farm_id) := by
  have h1 := rowInUserFarm_iff s u aid hnd
  cases hrb : rowInUserFarm s u aid with
  | true =>
    have := h1.mp hrb
    simp [this]
  | false =>
    by_cases h : ∃ a ∈ s.animals, a.id = aid ∧ a.farm_id = u.farm_id
    · rw [hrb] at h1
      simp at h1
      obtain ⟨a, ha, hid, hfarm⟩ := h
      exact absurd hfarm (h1 a ha hid)
    · simp [h]

/-- With positive farm ids, Python falsiness of `user.farm_id` means no
farm assigned. -/
lemma farmTruthy_eq_false_iff (u : User)
    (hpos : ∀ k, u.farm_id = some k → k ≠ 0) :
    farmTruthy u = false ↔ u.farm_id = none := by
  unfold farmTruthy
  cases hfi : u.farm_id with
  | none => simp
  | some k =>
    have := hpos k hfi
    simp [this]

/-! Theorems for claims settled by general statements. -/

/-- Claim C3 (amended): when the requested tag number equals an existing
animal's tag, `animals_create` answers with the handled error response
`HTTPException 400 "Tag already exists"` (not a form re-render and not a
crash); the animal insert is rolled back — the animal, milk, breeding,
gestation and vaccination tables are unchanged, so the pre-existing
animal's row is untouched — while the breed table keeps whatever the
separately committed breed lookup-or-create step produced. -/
theorem C3_amended_duplicate_tag_http400 (s : Store) (u : User) (f : AnimalForm)
    (hdup : ∃ a ∈ s.animals, a.tag_no = f.tag_no) :
    (animals_create s (some u) f).2 = Response.httpError 400 "Tag already exists" ∧
    (animals_create s (some u) f).1.animals = s.animals ∧
    (animals_create s (some u) f).1.milks = s.milks ∧
    (animals_create s (some u) f).1.breeding_events = s.breeding_events ∧
    (animals_create s (some u) f).1.gestations = s.gestations ∧
    (animals_create s (some u) f).1.vaccinations = s.vaccinations ∧
    (animals_create s (some u) f).1.breeds = (lookupOrCreateBreed s f.breed_name).1.breeds := by
  obtain ⟨hA, hM, hB, hG, hV⟩ := lookupOrCreateBreed_preserves s f.breed_name
  have hany : ((lookupOrCreateBreed s f.breed_name).1.animals.any
      (fun a => a.tag_no = f.tag_no)) = true := by
    rw [hA, List.any_eq_true]
    obtain ⟨a, ha, ht⟩ := hdup
    exact ⟨a, ha, by simpa using ht⟩
  simp only [animals_create, hany, if_true]
  exact ⟨trivial, hA, hM, hB, hG, hV, trivial⟩

/-- Witness for C3 (amended): the concrete duplicate-tag creation yields
the 400 error and leaves the animal table unchanged. -/
theorem C3_amended_duplicate_tag_witness :
    (animals_create sDup (some farm1User) dupForm).2 =
      Response.httpError 400 "Tag already exists" ∧
    (animals_create sDup (some farm1User) dupForm).1.animals = sDup.animals :=
  ⟨(C3_amended_duplicate_tag_http400 sDup farm1User dupForm (by decide)).1,
   (C3_amended_duplicate_tag_http400 sDup farm1User dupForm (by decide)).2.1⟩

/-- Claim C4: recording an AI or NaturalService breeding event dated `ed`
for an existing animal computes the predicted calving date
`ed + DEFAULT_GESTATION_DAYS` (283) and upserts the gestation record: if no
gestation row exists for the animal, a fresh row with service date `ed` and
that predicted date is inserted; if one exists, the latest row's service and
predicted dates are overwritten in place with no new row inserted. -/
theorem C4_gestation_prediction_upsert (s : Store) (u : User) (aid : Nat)
    (et : BreedingType) (ed : Int) (n : Option String)
    (hty : et = .AI ∨ et = .NaturalService)
    (hfind : (findAnimal s.animals aid).isSome) :
    (latestGestation s.gestations aid = none →
      (add_breeding_event s (some u) aid et ed n).1.gestations =
        s.gestations ++
          [⟨s.nextId + 1, aid, ed, ed + DEFAULT_GESTATION_DAYS, none, none⟩]) ∧
    (∀ g, latestGestation s.gestations aid = some g →
      (add_breeding_event s (some u) aid et ed n).1.gestations =
        s.gestations.map (fun x =>
          if x.id = g.id then
            { x with service_date := ed,
                     predicted_calving_date := ed + DEFAULT_GESTATION_DAYS }
          else x) ∧
      (add_breeding_event s (some u) aid et ed n).1.gestations.length =
        s.gestations.length) := by
  obtain ⟨a, ha⟩ := Option.isSome_iff_exists.mp hfind
  constructor
  · intro hnone
    exact add_breeding_event_insert s u aid et ed n a ha hty hnone
  · intro g hg
    have hupd := add_breeding_event_update s u aid et ed n a g ha hty hg
    exact ⟨hupd, by rw [hupd, List.length_map]⟩

/-- Witness for C4: on a store without gestation rows, an AI event dated
day 100 inserts the gestation with predicted date `100 + 283`. -/
theorem C4_gestation_prediction_witness :
    (add_breeding_event sBreed (some farm1User) 1 BreedingType.AI 100 none).1.gestations =
      sBreed.gestations ++
        [⟨sBreed.nextId + 1, 1, 100, 100 + DEFAULT_GESTATION_DAYS, none, none⟩] :=
  (C4_gestation_prediction_upsert sBreed farm1User 1 BreedingType.AI 100 none
    (Or.inl rfl) (by decide)).1 (by decide)

/-- Claim C5: starting from a store with at most one milk row for the
`(animal, date)` pair, after any non-empty sequence of milk writes for the
pair exactly one row for the pair is stored, and its am/pm/total reflect
only the last write, with the total persisted as `am + pm`. -/
theorem C5_milk_upsert_latest_write (s : Store) (u : User) (aid : Nat) (d : Int)
    (ws : List (ℚ × ℚ)) (w : ℚ × ℚ)
    (h : countPair s aid d ≤ 1) :
    countPair (applyMilkWrites s (some u) aid d (ws ++ [w])) aid d = 1 ∧
    ∀ m ∈ (applyMilkWrites s (some u) aid d (ws ++ [w])).milks,
      m.animal_id = aid → m.entry_date = d →
      m.am_liters = w.1 ∧ m.pm_liters = w.2 ∧ m.total_liters = w.1 + w.2 := by
  have hsplit : applyMilkWrites s (some u) aid d (ws ++ [w]) =
      (add_milk (applyMilkWrites s (some u) aid d ws) (some u) aid d w.1 w.2).1 := by
    simp [applyMilkWrites, List.foldl_append]
  rw [hsplit]
  exact add_milk_step (applyMilkWrites s (some u) aid d ws) u aid d w.1 w.2
    (applyMilkWrites_le_one s u aid d ws h)

/-- Witness for C5: two successive writes for the same pair on the empty
store leave exactly one row. -/
theorem C5_milk_upsert_witness :
    countPair (applyMilkWrites sEmpty (some farm1User) 1 10
      ([((5 : ℚ), (3 : ℚ))] ++ [((4 : ℚ), (4 : ℚ))])) 1 10 = 1 :=
  (C5_milk_upsert_latest_write sEmpty farm1User 1 10
    [((5 : ℚ), (3 : ℚ))] ((4 : ℚ), (4 : ℚ)) (by decide)).1

/-- Claim C6: for stores with unique animal ids and positive farm ids, the
dashboard's pending-gestation count equals the number of gestation rows with
`predicted_calving_date >= today` and null `actual_calving_date`, restricted
to the animals in scope for the user; in particular overdue unresolved
gestations (predicted date before today) are excluded, as the spec-side
count's `today ≤ predicted` guard shows. -/
theorem C6_pending_gestation_count (s : Store) (u : User) (today : Int)
    (hnd : (s.animals.map (fun a => a.id)).Nodup)
    (hpos : ∀ k, u.farm_id = some k → k ≠ 0) :
    (dashboardData s u today).pregnant = pendingGestationCount_spec s u today := by
  simp only [dashboardData, pendingGestationCount_spec]
  by_cases hsc : farmTruthy u ∧ ¬u.is_admin
  · rw [if_pos hsc]
    obtain ⟨htr, hadm⟩ := hsc
    have hadm2 : u.is_admin = false := by simpa using hadm
    have hfn : ¬u.farm_id = none := by
      intro hn
      rw [← farmTruthy_eq_false_iff u hpos] at hn
      rw [htr] at hn
      exact Bool.noConfusion hn
    rw [List.filter_filter]
    congr 1
    apply List.filter_congr
    intro g _
    rw [rowInUserFarm_eq_decide s u g.animal_id hnd]
    simp [hadm2, hfn, Bool.and_comm, Bool.and_left_comm, Bool.and_assoc]
  · rw [if_neg hsc]
    congr 1
    apply List.filter_congr
    intro g _
    rcases Decidable.not_and_iff_or_not.mp hsc with htr | hadm
    · have hfn : u.farm_id = none := by
        rw [← farmTruthy_eq_false_iff u hpos]
        simpa using htr
      simp [hfn]
    · have hadm2 : u.is_admin = true := by simpa using hadm
      simp [hadm2]

/-- Witness for C6: on the concrete store with one pending, one overdue and
one foreign-farm gestation, the farm-1 user's count is 1 — the overdue and
the foreign rows are excluded. -/
theorem C6_pending_gestation_witness :
    (dashboardData sPend farm1User 100).pregnant =
      pendingGestationCount_spec sPend farm1User 100 ∧
    pendingGestationCount_spec sPend farm1User 100 = 1 := by
  have h := C6_pending_gestation_count sPend farm1User 100 (by decide)
    (by intro k hk; simp [farm1User] at hk; omega)
  exact ⟨h, by with_unfolding_all decide⟩

/-- Claim C8 (amended): for a non-admin user with a (positive) farm id and
an animal of a different farm, only the detail view answers with the
Forbidden (403) response; the delete, milk-entry, breeding-event and edit
handlers perform their operation and answer with their success redirect,
with no farm check. -/
theorem C8_amended_only_detail_forbidden (s : Store) (u : User) (fid : Nat)
    (aid : Nat) (a : Animal)
    (hadmin : u.is_admin = false)
    (hfarm : u.farm_id = some fid)
    (hpos : fid ≠ 0)
    (hfind : findAnimal s.animals aid = some a)
    (hfa : a.farm_id ≠ some fid) :
    animal_detail s (some u) aid = Response.httpError 403 "Not allowed" ∧
    (animal_delete s (some u) aid).2 = Response.redirect "/animals" 302 ∧
    (animal_delete s (some u) aid).1.animals =
      s.animals.filter (fun b => b.id ≠ aid) ∧
    (∀ d am pm, (add_milk s (some u) aid d am pm).2 =
      Response.redirect ("/animals/" ++ toString aid) 302) ∧
    (∀ et ed n, (add_breeding_event s (some u) aid et ed n).2 =
      Response.redirect ("/animals/" ++ toString aid) 302) ∧
    (∀ f : AnimalForm, (∀ b ∈ s.animals, b.id ≠ aid → b.tag_no ≠ f.tag_no) →
      (animal_edit s (some u) aid f).2 =
        Response.redirect ("/animals/" ++ toString aid) 302) := by
  refine ⟨?_, ?_, ?_, ?_, ?_, ?_⟩
  · have h1 : farmTruthy u = true := by
      unfold farmTruthy
      rw [hfarm]
      simp [hpos]
    have h2 : ¬(u.is_admin = true) := by simp [hadmin]
    have h3 : a.farm_id ≠ u.farm_id := by rw [hfarm]; exact hfa
    simp only [animal_detail, hfind]
    rw [if_pos ⟨h1, h2, h3⟩]
  · simp [animal_delete, hfind]
  · simp [animal_delete, hfind]
  · intro d am pm
    simp only [add_milk]
    cases hf : s.milks.find? (fun m => m.animal_id = aid ∧ m.entry_date = d) <;>
      simp [hf]
  · intro et ed n
    simp only [add_breeding_event, hfind]
    by_cases hty : et = .AI ∨ et = .NaturalService
    · rw [if_pos hty]
      cases hl : latestGestation
          ({ s with
              breeding_events := s.breeding_events ++
                [⟨s.nextId, aid, et, ed, n⟩]
              nextId := s.nextId + 1 } : Store).gestations aid <;>
        simp [hl]
    · rw [if_neg hty]
  · intro f htag
    have hA := (lookupOrCreateBreed_preserves s f.breed_name).1
    have hany : ((lookupOrCreateBreed s f.breed_name).1.animals.any
        (fun b => b.id ≠ aid ∧ b.tag_no = f.tag_no)) = false := by
      rw [hA, List.any_eq_false]
      intro b hb
      simp only [decide_eq_true_eq, not_and]
      intro hne
      exact htag b hb hne
    simp only [animal_edit, hfind]
    rw [hany]
    simp

/-- Witness for C8 (amended): the farm-1 user gets 403 on farm 2's animal
detail, yet the milk write for the same animal goes through with the
success redirect. -/
theorem C8_amended_witness :
    animal_detail sCross (some farm1User) 2 = Response.httpError 403 "Not allowed" ∧
    (add_milk sCross (some farm1User) 2 50 1 2).2 =
      Response.redirect ("/animals/" ++ toString 2) 302 := by
  have h := C8_amended_only_detail_forbidden sCross farm1User 1 2 animalTwo
    rfl rfl (by decide) rfl (by decide)
  exact ⟨h.1, h.2.2.2.1 50 1 2⟩

/-- Claim C9: recording a Heat, PDPositive or PDNegative event for an
existing animal appends exactly one breeding-event row and changes nothing
else: the gestation table (and every other table) is left unchanged. -/
theorem C9_non_conceptive_events_frame (s : Store) (u : User) (aid : Nat)
    (et : BreedingType) (ed : Int) (n : Option String)
    (hty : et = .Heat ∨ et = .PDPositive ∨ et = .PDNegative)
    (hfind : (findAnimal s.animals aid).isSome) :
    (add_breeding_event s (some u) aid et ed n).1.gestations = s.gestations ∧
    (add_breeding_event s (some u) aid et ed n).1.animals = s.animals ∧
    (add_breeding_event s (some u) aid et ed n).1.milks = s.milks ∧
    (add_breeding_event s (some u) aid et ed n).1.vaccinations = s.vaccinations ∧
    (add_breeding_event s (some u) aid et ed n).1.breeds = s.breeds ∧
    (add_breeding_event s (some u) aid et ed n).1.breeding_events =
      s.breeding_events ++ [⟨s.nextId, aid, et, ed, n⟩] ∧
    (add_breeding_event s (some u) aid et ed n).2 =
      Response.redirect ("/animals/" ++ toString aid) 302 := by
  obtain ⟨a, ha⟩ := Option.isSome_iff_exists.mp hfind
  have hne : ¬(et = .AI ∨ et = .NaturalService) := by
    rcases hty with h | h | h <;> subst h <;> decide
  simp only [add_breeding_event, ha]
  rw [if_neg hne]
  exact ⟨rfl, rfl, rfl, rfl, rfl, rfl, rfl⟩

/-- Witness for C9: a Heat event on the two-gestation store leaves the
gestation table unchanged and appends the event row. -/
theorem C9_non_conceptive_events_witness :
    (add_breeding_event sGest (some farm1User) 1 BreedingType.Heat 50 none).1.gestations =
      sGest.gestations ∧
    (add_breeding_event sGest (some farm1User) 1 BreedingType.Heat 50 none).1.breeding_events =
      sGest.breeding_events ++ [⟨sGest.nextId, 1, BreedingType.Heat, 50, none⟩] := by
  have h := C9_non_conceptive_events_frame sGest farm1User 1 BreedingType.Heat 50 none
    (Or.inl rfl) (by decide)
  exact ⟨h.1, h.2.2.2.2.2.1⟩

/-- Claim C10: when an AI/NaturalService event is recorded for an animal
with existing gestation rows, the overwritten row is the one returned by
the latest-service-date lookup — its service date dominates every gestation
row of the animal, even when the row is already closed — and the update
touches only its service and predicted dates, so the row keeps its original
`actual_calving_date` (it is not cleared). -/
theorem C10_overwrites_latest_keeps_actual (s : Store) (u : User) (aid : Nat)
    (et : BreedingType) (ed : Int) (n : Option String) (g : Gestation)
    (hty : et = .AI ∨ et = .NaturalService)
    (hfind : (findAnimal s.animals aid).isSome)
    (hg : latestGestation s.gestations aid = some g) :
    (∀ x ∈ s.gestations, x.animal_id = aid → x.service_date ≤ g.service_date) ∧
    g ∈ s.gestations ∧
    (add_breeding_event s (some u) aid et ed n).1.gestations =
      s.gestations.map (fun x =>
        if x.id = g.id then
          { x with service_date := ed,
                   predicted_calving_date := ed + DEFAULT_GESTATION_DAYS }
        else x) ∧
    (∃ gu ∈ (add_breeding_event s (some u) aid et ed n).1.gestations,
      gu.id = g.id ∧ gu.service_date = ed ∧
      gu.predicted_calving_date = ed + DEFAULT_GESTATION_DAYS ∧
      gu.actual_calving_date = g.actual_calving_date) := by
  obtain ⟨a, ha⟩ := Option.isSome_iff_exists.mp hfind
  have hupd := add_breeding_event_update s u aid et ed n a g ha hty hg
  refine ⟨latestGestation_ge hg, (latestGestation_mem hg).1, hupd, ?_⟩
  refine ⟨{ g with service_date := ed, predicted_calving_date := ed + DEFAULT_GESTATION_DAYS }, ?_, rfl, rfl, rfl, rfl⟩
  rw [hupd]
  have hmem := List.mem_map_of_mem
    (fun x => if x.id = g.id then
      { x with service_date := ed,
               predicted_calving_date := ed + DEFAULT_GESTATION_DAYS }
      else x) (latestGestation_mem hg).1
  simpa using hmem

/-- Witness for C10: a NaturalService event dated day 20 overwrites the
closed latest gestation (id 2, actual calving day 300), which keeps its
actual calving date next to the new service/predicted dates. -/
theorem C10_overwrites_latest_witness :
    ∃ gu ∈ (add_breeding_event sGest (some farm1User) 1
        BreedingType.NaturalService 20 none).1.gestations,
      gu.id = 2 ∧ gu.service_date = 20 ∧
      gu.predicted_calving_date = 20 + DEFAULT_GESTATION_DAYS ∧
      gu.actual_calving_date = some 300 := by
  have h := C10_overwrites_latest_keeps_actual sGest farm1User 1
    BreedingType.NaturalService 20 none ⟨2, 1, 9, 292, some 300, none⟩
    (Or.inr rfl) (by decide) (by decide)
  exact h.2.2.2

end ErpFarm
